import Mathlib

/-!
Shallow embedding of the shipment-status app (`src/app_env/app.py`).

The core logic embedded here:
- `get_stop_status` (app.py lines 104-124): per-stop status classification,
  including the inline timezone normalization of a naive planned timestamp
  (lines 116-117) and the comparison against `datetime.now(timezone.utc)`
  (line 112).
- the progress aggregation in `main` (lines 184-186): completed count,
  total count and the guarded ratio.
- the search flow of `main` (lines 150-157 and 227-229): order lookup,
  conditional stop lookup, report construction or error message.

Python `datetime` values are modelled by `PyDateTime`: a wall-clock value in
seconds (`naive`) together with an optional UTC offset in seconds (`tz`;
`none` models a timezone-naive datetime, `some o` a timezone-aware one with
`utcoffset = o`).  Python comparison of two aware datetimes compares the
absolute instants `naive - offset`; comparing two naive datetimes compares
wall-clock values; comparing naive with aware raises `TypeError`, which is
modelled by `Except.error`.
-/

structure PyDateTime where
  naive : Int
  tz : Option Int
  deriving DecidableEq, Repr

/-- The absolute instant of a datetime: defined for aware values only
(`naive - utcoffset`); a naive datetime denotes no absolute instant. -/
def instant (d : PyDateTime) : Option Int :=
  d.tz.map (fun o => d.naive - o)

/-- Python `a > b` on two datetimes: aware vs aware compares absolute
instants, naive vs naive compares wall-clock values, and a mixed comparison
raises `TypeError`. -/
def pyGT (a b : PyDateTime) : Except String Bool :=
  match a.tz, b.tz with
  | some ta, some tb => Except.ok (decide (b.naive - tb < a.naive - ta))
  | none, none => Except.ok (decide (b.naive < a.naive))
  | _, _ => Except.error "TypeError"

/-- Lines 116-117 of app.py: `if planned_time.tzinfo is None:
planned_time = planned_time.replace(tzinfo=timezone.utc)` — a naive value is
reinterpreted as UTC (offset 0 attached, wall clock unchanged); an aware
value passes through unchanged. -/
def timeNormalize (d : PyDateTime) : PyDateTime :=
  if d.tz.isNone then { d with tz := some 0 } else d

/-- One row of the `get_shipment_stops` query (app.py lines 53-85).
A `none` timestamp models SQL NULL / Python `None`; datetime objects are
always truthy in Python, so the source's truthiness tests on these fields
are presence tests. -/
structure Stop where
  stop_id : String
  order_id : String
  stop_sequence : Int
  facility_id : String
  facility_name : String
  facility_type : String
  city : String
  region : String
  planned_arrival_at : Option PyDateTime
  actual_arrival_at : Option PyDateTime
  planned_depart_at : Option PyDateTime
  actual_depart_at : Option PyDateTime
  delay_reason_code : Option String
  created_at : Option PyDateTime
  updated_at : Option PyDateTime
  deriving DecidableEq, Repr

/-- `get_stop_status` (app.py lines 104-124).  `clock` is the value sampled
internally at line 112 by `datetime.now(timezone.utc)`: an aware UTC
datetime, so its wall-clock value equals its absolute instant (offset 0).
The Python function takes only `stop`; the clock sample is made an explicit
parameter here because the embedding is pure. -/
def get_stop_status (stop : Stop) (clock : Int) : Except String (String × String) :=
  if stop.actual_arrival_at.isSome && stop.actual_depart_at.isSome then
    Except.ok ("完了", "🟢")
  else if stop.actual_arrival_at.isSome then
    Except.ok ("到着済み", "🟡")
  else
    match stop.planned_arrival_at with
    | some planned =>
      let current_time : PyDateTime := { naive := clock, tz := some 0 }
      let planned_time := timeNormalize planned
      match pyGT current_time planned_time with
      | Except.ok true => Except.ok ("遅延", "🔴")
      | Except.ok false => Except.ok ("予定", "⚪")
      | Except.error e => Except.error e
    | none => Except.ok ("未定", "⚫")

/-- The normalized planned-arrival instant used by the spec's wording of
rule 3: a naive timestamp is read as UTC, an aware one as `naive - offset`. -/
def normInstant (d : PyDateTime) : Int :=
  d.naive - d.tz.getD 0

/-- The classifier as worded by the spec (§4.2): a priority-ordered,
first-match-wins decision over the four timestamp fields, total, with five
possible (label, icon) results.  Stated separately from `get_stop_status`
(which is translated from the source) so the two can be compared. -/
def classifySpec (stop : Stop) (now : Int) : String × String :=
  if stop.actual_arrival_at.isSome && stop.actual_depart_at.isSome then
    ("完了", "🟢")
  else if stop.actual_arrival_at.isSome then
    ("到着済み", "🟡")
  else
    match stop.planned_arrival_at with
    | some planned =>
      if normInstant planned < now then ("遅延", "🔴") else ("予定", "⚪")
    | none => ("未定", "⚫")

theorem get_stop_status_eq_classifySpec (s : Stop) (clock : Int) :
    get_stop_status s clock = Except.ok (classifySpec s clock) := by
  unfold get_stop_status classifySpec
  rcases h1 : s.actual_arrival_at.isSome && s.actual_depart_at.isSome with _ | _ <;>
    simp [h1]
  rcases h2 : s.actual_arrival_at.isSome with _ | _ <;> simp [h2]
  cases hp : s.planned_arrival_at with
  | none => simp
  | some p =>
    cases htz : p.tz with
    | none =>
      simp [timeNormalize, htz, pyGT, normInstant]
      rcases lt_or_ge p.naive clock with h | h
      · simp [h]
      · simp [not_lt.mpr h, not_lt_of_ge h]
    | some o =>
      simp [timeNormalize, htz, pyGT, normInstant]
      rcases lt_or_ge (p.naive - o) clock with h | h
      · simp [h]
      · simp [not_lt.mpr h, not_lt_of_ge h]

/-- Line 184 of app.py: `completed_stops = sum(1 for stop in shipment_stops
if stop['actual_arrival_at'] and stop['actual_depart_at'])`. -/
def completed_stops (shipment_stops : List Stop) : Nat :=
  (shipment_stops.filter
    (fun stop => stop.actual_arrival_at.isSome && stop.actual_depart_at.isSome)).length

/-- Line 185 of app.py: `total_stops = len(shipment_stops)`. -/
def total_stops (shipment_stops : List Stop) : Nat :=
  shipment_stops.length

/-- Python `/`, which raises `ZeroDivisionError` on a zero divisor.  The
result of a non-faulting division is modelled as the exact rational value
(the source computes a binary64 float; no claim settled against this
definition depends on rounding). -/
def pyDiv (a b : ℚ) : Except String ℚ :=
  if b = 0 then Except.error "ZeroDivisionError" else Except.ok (a / b)

/-- Line 186 of app.py: `progress = completed_stops / total_stops if
total_stops > 0 else 0`. -/
def progress (shipment_stops : List Stop) : Except String ℚ :=
  if total_stops shipment_stops > 0 then
    pyDiv (completed_stops shipment_stops) (total_stops shipment_stops)
  else
    Except.ok 0

/-- One row of the `get_order_info` query (app.py lines 25-51). -/
structure Order where
  order_id : String
  order_date : Option PyDateTime
  customer_id : String
  origin_location_id : String
  destination_location_id : String
  service_level : String
  order_value : ℚ
  weight_kg : ℚ
  status : String
  created_at : Option PyDateTime
  updated_at : Option PyDateTime
  deriving DecidableEq, Repr

/-- The two store responses that `main` can observe for a given order id:
what `db.get_order_info(order_id)` returns (`none` when the order is
missing) and what `db.get_shipment_stops(order_id)` would return. -/
structure Stores where
  order_info : Option Order
  stops : List Stop

/-- The per-order progress data computed and rendered by `main`
(lines 184-193): the per-stop classifier results in input order, the
completed and total counts, and the guarded ratio. -/
structure ShipmentProgress where
  stopStatuses : List (Except String (String × String))
  completedCount : Nat
  totalCount : Nat
  progressRatio : Except String ℚ
  deriving Repr

def build_shipment_progress (shipment_stops : List Stop) (clock : Int) : ShipmentProgress :=
  { stopStatuses := shipment_stops.map (fun s => get_stop_status s clock)
    completedCount := completed_stops shipment_stops
    totalCount := total_stops shipment_stops
    progressRatio := progress shipment_stops }

/-- The search branch of `main` (app.py lines 150-229): `get_order_info` is
called first; only when it returns a row is `get_shipment_stops` called and
a report built (lines 155-157), otherwise an error message is shown and no
report is produced (lines 227-229).  The result pairs the report (if any)
with the trace of store calls made, in order. -/
def run_search (db : Stores) (clock : Int) :
    Option (Order × ShipmentProgress) × List String :=
  match db.order_info with
  | some order_info =>
    let shipment_stops := db.stops
    (some (order_info, build_shipment_progress shipment_stops clock),
      ["get_order_info", "get_shipment_stops"])
  | none => (none, ["get_order_info"])

deriving instance DecidableEq for Except

/-- C1: for every stop record the classifier applies the priority-ordered
decision of §4.2 — both actuals present → Completed (完了); else actual
arrival present → Arrived (到着済み); else planned arrival present →
Delayed (遅延) when `now` is strictly after the normalized planned arrival,
Scheduled (予定) otherwise; else Unknown (未定) — first matching rule wins,
and the result is always exactly the value of that five-way decision
(`classifySpec`), never a fault. -/
theorem classifier_priority_order (s : Stop) (clock : Int) :
    get_stop_status s clock = Except.ok (classifySpec s clock) :=
  get_stop_status_eq_classifySpec s clock

/-- C2: for a stop with no actual timestamps and planned arrival `p`, the
classifier yields Delayed exactly when `now` is strictly after the
normalized planned instant and Scheduled otherwise; in particular at the
exact boundary `now = normInstant p` it yields Scheduled. -/
theorem planned_only_delayed_iff_strictly_late (s : Stop) (p : PyDateTime) (now : Int) :
    get_stop_status
        { s with actual_arrival_at := none, actual_depart_at := none,
                 planned_arrival_at := some p } now
      = Except.ok (if normInstant p < now then ("遅延", "🔴") else ("予定", "⚪"))
    ∧ get_stop_status
        { s with actual_arrival_at := none, actual_depart_at := none,
                 planned_arrival_at := some p } (normInstant p)
      = Except.ok ("予定", "⚪") := by
  constructor
  · rw [get_stop_status_eq_classifySpec]
    simp [classifySpec]
  · rw [get_stop_status_eq_classifySpec]
    simp [classifySpec]

/-- Helper for C3: `classifySpec` returns the Completed pair exactly when
both actual timestamps are present. -/
theorem classifySpec_completed_iff (s : Stop) (now : Int) :
    classifySpec s now = ("完了", "🟢")
      ↔ (s.actual_arrival_at.isSome && s.actual_depart_at.isSome) = true := by
  unfold classifySpec
  rcases h1 : s.actual_arrival_at.isSome && s.actual_depart_at.isSome with _ | _ <;>
    simp [h1]
  rcases h2 : s.actual_arrival_at.isSome with _ | _ <;> simp [h2] <;>
    cases hp : s.planned_arrival_at <;> simp
  split <;> simp

/-- C3: the completed count of line 184 equals the number of stops the
classifier labels Completed, and per stop the classifier returns the
Completed pair exactly when both actual timestamps are present (rule 1). -/
theorem completed_count_consistent_with_classifier (stops : List Stop) (clock : Int) :
    completed_stops stops
      = (stops.filter
          (fun s => decide (get_stop_status s clock = Except.ok ("完了", "🟢")))).length
    ∧ ∀ s : Stop,
        decide (get_stop_status s clock = Except.ok ("完了", "🟢"))
          = (s.actual_arrival_at.isSome && s.actual_depart_at.isSome) := by
  have hpred : ∀ s : Stop,
      decide (get_stop_status s clock = Except.ok ("完了", "🟢"))
        = (s.actual_arrival_at.isSome && s.actual_depart_at.isSome) := by
    intro s
    rw [get_stop_status_eq_classifySpec]
    rcases h : s.actual_arrival_at.isSome && s.actual_depart_at.isSome with _ | _
    · simp only [decide_eq_false_iff_not]
      intro hc
      rw [Except.ok.injEq] at hc
      have := (classifySpec_completed_iff s clock).mp hc
      rw [h] at this
      exact Bool.false_ne_true this
    · simp only [decide_eq_true_eq, Except.ok.injEq]
      exact (classifySpec_completed_iff s clock).mpr h
  refine ⟨?_, hpred⟩
  unfold completed_stops
  rw [List.filter_congr (fun s _ => (hpred s).symm)]

/-- C4: aggregating the empty stop sequence yields completed count 0, total
count 0 and ratio 0 through the guard's else branch, and for every input
sequence the division is guarded so the `ZeroDivisionError` branch of
`pyDiv` is unreachable: `progress` always returns a value. -/
theorem aggregate_empty_no_division_fault :
    completed_stops [] = 0 ∧ total_stops [] = 0 ∧ progress [] = Except.ok 0
    ∧ ∀ stops : List Stop, ∃ q : ℚ, progress stops = Except.ok q := by
  refine ⟨rfl, rfl, rfl, ?_⟩
  intro stops
  unfold progress pyDiv
  by_cases h : total_stops stops > 0
  · have hb : ((total_stops stops : ℚ)) ≠ 0 :=
      ne_of_gt (by exact_mod_cast Nat.cast_pos.mpr h)
    simp [h, hb]
  · simp [h]

/-- C6: normalization maps a naive timestamp to the same absolute instant
as the identical wall-clock value carrying an explicit +00:00 offset, and
passes an already-aware timestamp through unchanged; the concrete pair from
the spec — naive 2025-01-15T10:00:00 and aware 2025-01-15T10:00:00+00:00,
epoch second 1736935200 — denote equal instants after normalization; and
the classifier never reaches the mixed naive/aware comparison: it always
returns a value, never the `TypeError` fault. -/
theorem normalization_utc_equivalence :
    (∀ t : Int, timeNormalize ⟨t, none⟩ = ⟨t, some 0⟩)
    ∧ (∀ t o : Int, timeNormalize ⟨t, some o⟩ = ⟨t, some o⟩)
    ∧ (∀ t : Int, instant (timeNormalize ⟨t, none⟩) = instant ⟨t, some 0⟩)
    ∧ instant (timeNormalize ⟨1736935200, none⟩) = some 1736935200
    ∧ instant ⟨1736935200, some 0⟩ = some 1736935200
    ∧ ∀ (s : Stop) (clock : Int), ∃ r, get_stop_status s clock = Except.ok r := by
  refine ⟨fun t => rfl, fun t o => rfl, fun t => rfl, rfl, rfl, fun s clock => ?_⟩
  exact ⟨classifySpec s clock, get_stop_status_eq_classifySpec s clock⟩

/-- C7: a stop violating the data invariant — actual departure present
while actual arrival is absent — does not fault the classifier: rules 1 and
2 are skipped (both require an actual arrival) and the stop is classified
by rule 3 or 4 from its planned arrival alone. -/
theorem depart_without_arrival_absorbed (s : Stop) (d : PyDateTime) (clock : Int) :
    get_stop_status { s with actual_arrival_at := none, actual_depart_at := some d } clock
      = Except.ok (match s.planned_arrival_at with
          | some p => if normInstant p < clock then ("遅延", "🔴") else ("予定", "⚪")
          | none => ("未定", "⚫")) := by
  rw [get_stop_status_eq_classifySpec]
  unfold classifySpec
  simp

/-- C8: when the order lookup returns absent, the search flow of `main`
produces no report — a defined absent outcome, not a fault — and the stop
lookup `get_shipment_stops` is not invoked: the call trace holds only
`get_order_info`. -/
theorem missing_order_no_report (stops : List Stop) (clock : Int) :
    run_search { order_info := none, stops := stops } clock = (none, ["get_order_info"])
    ∧ "get_shipment_stops" ∉ (run_search { order_info := none, stops := stops } clock).2 := by
  refine ⟨rfl, ?_⟩
  simp [run_search]

/-- A concrete stop whose only timestamp is a naive planned arrival at
2025-01-15T10:00:00 (epoch second 1736935200): the branch of
`get_stop_status` that samples `datetime.now(timezone.utc)` internally
(app.py line 112). -/
def stopPlannedOnly : Stop :=
  { stop_id := "S1"
    order_id := "20250115-001"
    stop_sequence := 1
    facility_id := "F1"
    facility_name := "Tokyo DC"
    facility_type := "warehouse"
    city := "Tokyo"
    region := "Kanto"
    planned_arrival_at := some ⟨1736935200, none⟩
    actual_arrival_at := none
    planned_depart_at := none
    actual_depart_at := none
    delay_reason_code := none
    created_at := none
    updated_at := none }

/-- C9 evidence: the classifier's result depends on the instant sampled
internally from the system clock at app.py line 112 — on the same stop
record the same call returns Scheduled (予定) while the wall clock reads
1736935100 and Delayed (遅延) once it reads 1736935300 — so the Python
function `get_stop_status(stop)`, which takes no `now` argument, is not
reproducible from its arguments alone, contrary to the caller-injected
`now` the design mandates. -/
theorem get_stop_status_depends_on_internal_clock :
    get_stop_status stopPlannedOnly 1736935100 = Except.ok ("予定", "⚪")
    ∧ get_stop_status stopPlannedOnly 1736935300 = Except.ok ("遅延", "🔴") :=
  ⟨rfl, rfl⟩

/-- C10: the classifier is total on stop records whose four timestamp
fields are each an instant or absent: it always returns a value (never a
fault), and that value is one of exactly five fixed (label, icon) pairs,
each label always paired with the same icon. -/
theorem classifier_total_five_outcomes (s : Stop) (clock : Int) :
    get_stop_status s clock = Except.ok ("完了", "🟢")
    ∨ get_stop_status s clock = Except.ok ("到着済み", "🟡")
    ∨ get_stop_status s clock = Except.ok ("遅延", "🔴")
    ∨ get_stop_status s clock = Except.ok ("予定", "⚪")
    ∨ get_stop_status s clock = Except.ok ("未定", "⚫") := by
  have h : classifySpec s clock = ("完了", "🟢")
      ∨ classifySpec s clock = ("到着済み", "🟡")
      ∨ classifySpec s clock = ("遅延", "🔴")
      ∨ classifySpec s clock = ("予定", "⚪")
      ∨ classifySpec s clock = ("未定", "⚫") := by
    unfold classifySpec
    split
    · exact Or.inl rfl
    · split
      · exact Or.inr (Or.inl rfl)
      · split
        · split
          · exact Or.inr (Or.inr (Or.inl rfl))
          · exact Or.inr (Or.inr (Or.inr (Or.inl rfl)))
        · exact Or.inr (Or.inr (Or.inr (Or.inr rfl)))
  rw [get_stop_status_eq_classifySpec]
  rcases h with h | h | h | h | h <;> rw [h] <;> tauto
